import Mathlib

/-!
Verification development for the vnstock installation orchestrator
(`vnstock-installer.py` and `vnstock_cli.py`).

Each Python function relevant to the checked properties is translated
into a pure Lean function.  Effects of the outside world (HTTP responses,
subprocess results, filesystem probes, raised exceptions) are passed in
explicitly as inductive data, so that every control-flow branch of the
source is represented by a branch of the Lean definition.  Python
exceptions are modelled with an explicit exception type `PyExn` and
`Except PyExn` results; observable side effects (temp-dir removal,
package-manager invocations, attempted subprocess calls) are collected
in explicit event lists.
-/

/-! ## String helpers (substring containment, as used by `in` on Python strings) -/

/-- Does the character list `l` start with `sub`? (Python `str.startswith`). -/
def chStarts : List Char → List Char → Bool
  | [], _ => true
  | _ :: _, [] => false
  | a :: as, b :: bs => a == b && chStarts as bs

/-- Does the character list `l` contain `sub` as a contiguous run?
(Python `sub in s`). -/
def chContainsSub (sub : List Char) : List Char → Bool
  | [] => chStarts sub []
  | l@(_ :: t) => chStarts sub l || chContainsSub sub t

/-- Python `sub in s` for strings. -/
def strContainsSub (s sub : String) : Bool := chContainsSub sub.data s.data

/-- Python `str.lower()`, character by character. -/
def strLower (s : String) : String := ⟨s.data.map Char.toLower⟩

/-! ## `sanitize_log_data` (vnstock-installer.py, lines 66-81)

Python dict values are modelled by `PyVal`; a dict is a finite association
list of string keys (Python 3.7+ dicts preserve insertion order, and the
loop rewrites values in place, so order is preserved).
-/

/-- A Python value as far as `sanitize_log_data` can observe it. -/
inductive PyVal where
  | str (s : String)
  | int (n : Int)
  | dict (entries : List (String × PyVal))
  | pylist (xs : List PyVal)
  deriving Repr

/-- The `sensitive_keys` list of `sanitize_log_data`. -/
def sensitive_keys : List String :=
  ["api_key", "token", "password", "secret",
   "authorization", "access_token", "refresh_token"]

/-- `any(sensitive in key_lower for sensitive in sensitive_keys)` applied
to `key.lower()`. -/
def isSensitiveKey (key : String) : Bool :=
  sensitive_keys.any (fun sensitive => strContainsSub (strLower key) sensitive)

/-- Translation of `sanitize_log_data`: the loop walks the keys in order;
a sensitive key is redacted, a dict value under a non-sensitive key is
sanitized recursively, and every other value (including lists) is left
as it is. -/
def sanitize_log_data : List (String × PyVal) → List (String × PyVal)
  | [] => []
  | (k, v) :: rest =>
    if isSensitiveKey k then
      (k, PyVal.str "***REDACTED***") :: sanitize_log_data rest
    else
      match v with
      | PyVal.dict d => (k, PyVal.dict (sanitize_log_data d)) :: sanitize_log_data rest
      | _ => (k, v) :: sanitize_log_data rest

/-- Per-entry description of what the sanitizer is claimed to do to one
key/value pair (the claim side of C10, stated from the claim's words). -/
def sanitizeEntryClaim (k : String) (v : PyVal) : PyVal :=
  if isSensitiveKey k then PyVal.str "***REDACTED***"
  else
    match v with
    | PyVal.dict d => PyVal.dict (sanitize_log_data d)
    | other => other

/-! ## `get_package_priority` and the auto-install ordering
(vnstock-installer.py, lines 1528-1545) -/

/-- The declared `package_order` list of `main`. -/
def package_order : List String :=
  ["vnstock", "vnstock_data", "vnstock_ta", "vnstock_pipeline", "vnstock_news"]

/-- A package entry as seen by the sorter: only its `name` field is read. -/
structure Pkg where
  name : String
  deriving DecidableEq, Repr

/-- Translation of `get_package_priority`: `package_order.index(name)`,
and `len(package_order)` when the name is absent (the `ValueError`
branch).  `List.indexOf` returns the length exactly when the element is
absent, so it realises both branches at once. -/
def get_package_priority (pkg : Pkg) : Nat := package_order.indexOf pkg.name

/-- The comparison `sorted(..., key=get_package_priority)` sorts by. -/
def priority_le (a b : Pkg) : Bool := get_package_priority a ≤ get_package_priority b

/-- Stable insertion of `x` into a list: `x` goes after every element
already ordered no later than it, so elements inserted later stay after
earlier equal ones (the stability guarantee of Python `sorted`). -/
def sInsert {α : Type} (le : α → α → Bool) (x : α) : List α → List α
  | [] => [x]
  | y :: t => if le y x then y :: sInsert le x t else x :: y :: t

/-- The worker of the stable sort: the accumulator holds the
already-sorted earlier inputs. -/
def pyStableSortGo {α : Type} (le : α → α → Bool) (acc : List α) : List α → List α
  | [] => acc
  | x :: t => pyStableSortGo le (sInsert le x acc) t

/-- A stable sort: fold the input in order through stable insertion.
This models Python `sorted` (a stable comparison sort). -/
def pyStableSort {α : Type} (le : α → α → Bool) (l : List α) : List α :=
  pyStableSortGo le [] l

/-- `sorted(available_packages, key=get_package_priority)`. -/
def sortPackagesByPriority (l : List Pkg) : List Pkg := pyStableSort priority_le l

/-- A package whose name appears in the declared order list. -/
def pkgKnown (p : Pkg) : Bool := package_order.contains p.name

/-! ## Python exceptions and lowercasing -/

/-- The Python exception classes distinguished by the handlers of the two
scripts. -/
inductive PyExn where
  | timeoutExpired
  | calledProcessError
  | fileNotFoundError
  | tarError (msg : String)
  | requestError (msg : String)
  | otherError (msg : String)
  deriving DecidableEq, Repr

/-! ## `VnstockLicenseManager.register_device` (vnstock-installer.py, lines 540-624) -/

namespace Installer

/-- The fields of the registration HTTP response that `register_device`
reads: the status code and the `message` / `error` members of the JSON
body. -/
structure HttpResp where
  status : Nat
  jsonMessage : Option String
  jsonError : Option String
  deriving DecidableEq, Repr

/-- Outcome of the registration POST: a response, a raised
`requests.exceptions.RequestException`, or any other raised exception. -/
inductive RegOutcome where
  | resp (r : HttpResp)
  | requestError (msg : String)
  | otherError (msg : String)
  deriving DecidableEq, Repr

/-- Translation of `register_device` (its returned `(success, message)`
pair): 200 succeeds, 429 is classified as device-limit-exceeded with the
`message` body field appended, any other status fails with the `error`
body field, and the two exception handlers fail with prefixed messages. -/
def register_device : RegOutcome → Bool × String
  | RegOutcome.resp r =>
    if r.status == 200 then (true, "Device registered successfully")
    else if r.status == 429 then
      (false, "Device limit exceeded: " ++ r.jsonMessage.getD "Unknown error")
    else (false, r.jsonError.getD ("HTTP " ++ toString r.status))
  | RegOutcome.requestError m => (false, "Network error: " ++ m)
  | RegOutcome.otherError m => (false, "Registration error: " ++ m)

/-- Observable events of the registration step of `main`
(vnstock-installer.py, lines 1421-1437) and of what follows it. -/
inductive MainEvent where
  | registrationAttempt
  | registrationFailureSaved
  | artifactInstallPhase
  | exitCall (code : Nat)
  deriving DecidableEq, Repr

/-- Translation of the registration step of `main` and of the control flow
that follows it: the returned events record what `main` does, the returned
strings are the console lines this step prints (`uiRegistering` and
`uiRegFailed` stand for the locale-dependent `ui` labels).  On failure the
step prints the failure line, saves a failure record, and falls through to
the artifact-installation phase; there is no `sys.exit` on this path. -/
def main_registration_step (uiRegistering uiRegFailed : String)
    (skipRegister : Bool) (reg : RegOutcome) : List MainEvent × List String :=
  if skipRegister then ([MainEvent.artifactInstallPhase], [])
  else
    let res := register_device reg
    if res.1 then
      ([MainEvent.registrationAttempt, MainEvent.artifactInstallPhase],
       [uiRegistering])
    else
      ([MainEvent.registrationAttempt, MainEvent.registrationFailureSaved,
        MainEvent.artifactInstallPhase],
       [uiRegistering,
        uiRegFailed ++ ": " ++ res.2,
        "Note: Device registration failed, but installation will continue.",
        "User profile may be saved locally for next time."])

/-- How the installer process terminates, as seen by its `__main__` block
(vnstock-installer.py, lines 1666-1683): `main()` returning (possibly
having called `sys.exit` itself), a `KeyboardInterrupt`, or any other
exception. -/
inductive TermEvent where
  | completed (nestedExitCode : Option Nat)
  | keyboardInterrupt
  | unexpectedError (msg : String)
  deriving DecidableEq, Repr

/-- Exit code of the installer entry point: the `__main__` block maps
`KeyboardInterrupt` to 130 and any other exception to 1; a `sys.exit(c)`
raised inside `main` passes through both handlers, and falling off the end
exits 0. -/
def installer_exit_code : TermEvent → Nat
  | TermEvent.completed none => 0
  | TermEvent.completed (some c) => c
  | TermEvent.keyboardInterrupt => 130
  | TermEvent.unexpectedError _ => 1

end Installer

/-! ## The CLI orchestrator (vnstock_cli.py) -/

namespace Cli

/-- What `run_vnstock_installer` observes of the finished installer
subprocess: its stdout as the list of lines `stdout.split('\n')`, its exit
code, and the two counters its scan loop parses out of the summary lines. -/
structure InstallerProc where
  stdoutLines : List String
  returncode : Int
  failedCount : Nat
  successCount : Nat
  deriving DecidableEq, Repr

/-- The marker `run_vnstock_installer` greps the output for. -/
def device_limit_marker : String := "device limit exceeded"

/-- The first scan of `run_vnstock_installer` (vnstock_cli.py, lines
2366-2370): is the marker contained in some lowercased output line? -/
def detect_device_limit (lines : List String) : Bool :=
  lines.any (fun line => strContainsSub (strLower line) device_limit_marker)

/-- Translation of the decision logic of `run_vnstock_installer` after the
subprocess has finished (vnstock_cli.py, lines 2364-2434): first component
is the returned success flag, second whether the device-removal guidance
block was printed.  The device-limit branch returns `False` before any of
the count-based checks run. -/
def run_vnstock_installer (p : InstallerProc) : Bool × Bool :=
  if detect_device_limit p.stdoutLines then (false, true)
  else if p.failedCount > 0 then (false, false)
  else if p.returncode == 0 || p.successCount > 0 then (true, false)
  else (false, false)

/-- Results of the successive steps of `VNStockCLIInstaller.run`
(vnstock_cli.py, lines 2550-2646). -/
structure RunSteps where
  isColab : Bool
  mountDriveOk : Bool
  detectPythonOk : Bool
  selectPythonOk : Bool
  selectVenvConfigOk : Bool
  createVenvOk : Bool
  installDepsOk : Bool
  installCritDepsOk : Bool
  installerOk : Bool
  validateOk : Bool
  deriving DecidableEq, Repr

/-- Translation of the short-circuiting step chain of
`VNStockCLIInstaller.run`: each failing step makes `run` return `False`;
venv creation is skipped on Colab. -/
def cliRun (s : RunSteps) : Bool :=
  if s.isColab && !s.mountDriveOk then false
  else if !s.detectPythonOk then false
  else if !s.selectPythonOk then false
  else if !s.selectVenvConfigOk then false
  else if !s.isColab && !s.createVenvOk then false
  else if !s.installDepsOk then false
  else if !s.installCritDepsOk then false
  else if !s.installerOk then false
  else if !s.validateOk then false
  else true

/-- How the CLI process terminates, as seen by `main` (vnstock_cli.py,
lines 2744-2752). -/
inductive CliTerm where
  | completed (runSuccess : Bool)
  | keyboardInterrupt
  | unexpectedError (msg : String)
  deriving DecidableEq, Repr

/-- Exit code of the CLI entry point: `sys.exit(0 if success else 1)`,
and both the `KeyboardInterrupt` and the generic exception handler call
`sys.exit(1)`. -/
def cli_main_exit_code : CliTerm → Nat
  | CliTerm.completed s => if s then 0 else 1
  | CliTerm.keyboardInterrupt => 1
  | CliTerm.unexpectedError _ => 1

end Cli

/-! ## Runtime provisioning (C6) -/

namespace Installer

/-- The interpreter a provisioning call resolves to: the ambient
`sys.executable` or the `bin/python` (or `Scripts/python.exe`) of a venv
path. -/
inductive Interp where
  | ambient
  | venvPython (venvPath : String)
  deriving DecidableEq, Repr

/-- What the filesystem and the `uv venv` subprocess do during
`create_or_use_venv`: `createOutcome` is `Except.ok ()` when the
`check=True` call returns cleanly, `Except.error PyExn.calledProcessError`
when it exits non-zero, and `Except.error e` for any other raised
exception, such as a `FileNotFoundError` when the `uv` binary is absent
from the PATH. -/
structure VenvWorld where
  venvExists : Bool
  createOutcome : Except PyExn Unit
  pythonBinaryExists : Bool
  deriving Repr

/-- Translation of `create_or_use_venv` (vnstock-installer.py, lines
322-367): reuse an existing venv directory; otherwise create one with
`uv venv`, returning `sys.executable` on a `CalledProcessError` — the
only exception the `try` catches, so a `FileNotFoundError` or any other
exception of that call escapes the function; finally return
`sys.executable` when the venv python binary does not exist. -/
def create_or_use_venv (venvPath : String) (w : VenvWorld) : Except PyExn Interp :=
  if w.venvExists then
    if w.pythonBinaryExists then Except.ok (Interp.venvPython venvPath)
    else Except.ok Interp.ambient
  else
    match w.createOutcome with
    | Except.error PyExn.calledProcessError => Except.ok Interp.ambient
    | Except.error e => Except.error e
    | Except.ok () =>
      if w.pythonBinaryExists then Except.ok (Interp.venvPython venvPath)
      else Except.ok Interp.ambient

end Installer

namespace Cli

/-- What the world does during `create_virtual_environment`:
configuration, venv-directory state, the `shutil.rmtree` of a corrupted
venv, the `ensure_uv_installed` call, and the `uv venv` subprocess. -/
structure CveWorld where
  venvTypeSystem : Bool
  venvPathConfigured : Bool
  venvExists : Bool
  venvHealthy : Bool
  rmtreeSucceeds : Bool
  uvInstallResult : Except PyExn Bool
  uvVenvCreateOk : Bool
  deriving Repr

/-- Translation of `VNStockCLIInstaller.create_virtual_environment`
(vnstock_cli.py, lines 1413-1472).  Every failure path returns `False`
(there is no fallback to the ambient interpreter): unconfigured path,
failed removal of a corrupted venv, `ensure_uv_installed` returning
`False` or raising, and a failing `uv venv` call (caught by the generic
handler). -/
def create_virtual_environment (w : CveWorld) : Bool :=
  if w.venvTypeSystem then true
  else if !w.venvPathConfigured then false
  else if w.venvExists && w.venvHealthy then true
  else if w.venvExists && !w.venvHealthy && !w.rmtreeSucceeds then false
  else
    match w.uvInstallResult with
    | Except.ok true => w.uvVenvCreateOk
    | Except.ok false => false
    | Except.error _ => false

end Cli

/-! ## `ensure_uv_installed` (C9) -/

namespace Cli

/-- Outcome of one `subprocess.run(..., check=True)` call: a zero exit
(`check=True` turns a non-zero exit into a `CalledProcessError`), or a
raised exception. -/
inductive ProcOutcome where
  | ok
  | calledProcessError
  | fileNotFoundError
  | timeoutExpired
  | otherError (msg : String)
  deriving DecidableEq, Repr

/-- What the world does during `ensure_uv_installed`: the `uv --version`
probe, the `curl` fetch of the standalone install script (returncode, or
an exception), the `sh -c` run of that script, and the two pip attempts. -/
structure UvWorld where
  probe : ProcOutcome
  curlFetch : Except PyExn Int
  shInstall : Except PyExn Int
  pipWithFlag : ProcOutcome
  pipPlain : ProcOutcome
  deriving Repr

/-- The subprocess calls `ensure_uv_installed` actually issues. -/
inductive UvAttempt where
  | probeAttempt
  | curlAttempt
  | shAttempt
  | pipWithFlagAttempt
  | pipPlainAttempt
  deriving DecidableEq, Repr

/-- Translation of the standalone-installer stage (curl the script, then
run it); any exception in this stage is swallowed by `except Exception:
pass` and control falls through to the pip stage.  Returns whether the
stage succeeded together with the attempts it made. -/
def uv_standalone_stage (w : UvWorld) : Bool × List UvAttempt :=
  match w.curlFetch with
  | Except.error _ => (false, [UvAttempt.curlAttempt])
  | Except.ok rc =>
    if rc == 0 then
      match w.shInstall with
      | Except.error _ => (false, [UvAttempt.curlAttempt, UvAttempt.shAttempt])
      | Except.ok rc2 =>
        (rc2 == 0, [UvAttempt.curlAttempt, UvAttempt.shAttempt])
    else (false, [UvAttempt.curlAttempt])

/-- The body of the `except (CalledProcessError, FileNotFoundError)`
handler of `ensure_uv_installed`: standalone stage, then pip with
`--break-system-packages`, retrying plain pip only on a
`CalledProcessError`. -/
def ensure_uv_installed_absent (w : UvWorld) : Except PyExn Bool × List UvAttempt :=
  let stage := uv_standalone_stage w
  let attempts := UvAttempt.probeAttempt :: stage.2
  if stage.1 then (Except.ok true, attempts)
  else
    match w.pipWithFlag with
    | ProcOutcome.ok => (Except.ok true, attempts ++ [UvAttempt.pipWithFlagAttempt])
    | ProcOutcome.calledProcessError =>
      -- retry without the flag, only catching CalledProcessError
      (match w.pipPlain with
       | ProcOutcome.ok => Except.ok true
       | ProcOutcome.calledProcessError => Except.ok false
       | ProcOutcome.fileNotFoundError => Except.error PyExn.fileNotFoundError
       | ProcOutcome.timeoutExpired => Except.error PyExn.timeoutExpired
       | ProcOutcome.otherError m => Except.error (PyExn.otherError m),
       attempts ++ [UvAttempt.pipWithFlagAttempt, UvAttempt.pipPlainAttempt])
    | ProcOutcome.timeoutExpired =>
      (Except.ok false, attempts ++ [UvAttempt.pipWithFlagAttempt])
    | ProcOutcome.fileNotFoundError =>
      (Except.ok false, attempts ++ [UvAttempt.pipWithFlagAttempt])
    | ProcOutcome.otherError _ =>
      (Except.ok false, attempts ++ [UvAttempt.pipWithFlagAttempt])

/-- Translation of `ensure_uv_installed` (vnstock_cli.py, lines 335-402).
The returned value is `Except.ok b` when the Python function returns `b`,
and `Except.error e` when an exception escapes it (a `TimeoutExpired` or
other non-`CalledProcessError` exception raised by the plain pip retry is
not caught by any handler).  The attempt list records which subprocess
calls were made. -/
def ensure_uv_installed (w : UvWorld) : Except PyExn Bool × List UvAttempt :=
  match w.probe with
  | ProcOutcome.ok => (Except.ok true, [UvAttempt.probeAttempt])
  | ProcOutcome.calledProcessError => ensure_uv_installed_absent w
  | ProcOutcome.fileNotFoundError => ensure_uv_installed_absent w
  -- any other exception from the probe is not caught and escapes
  | ProcOutcome.timeoutExpired => (Except.error PyExn.timeoutExpired, [UvAttempt.probeAttempt])
  | ProcOutcome.otherError m => (Except.error (PyExn.otherError m), [UvAttempt.probeAttempt])

end Cli

namespace Installer

/-- Translation of the installer-side `ensure_uv_installed`
(vnstock-installer.py, lines 371-403): probe `uv --version`, then a single
plain `pip install uv` attempt; any exception there returns `False`. -/
def ensure_uv_installed (probe : Cli.ProcOutcome) (pipInstall : Cli.ProcOutcome) :
    Except PyExn Bool :=
  match probe with
  | Cli.ProcOutcome.ok => Except.ok true
  | Cli.ProcOutcome.calledProcessError =>
    (match pipInstall with
     | Cli.ProcOutcome.ok => Except.ok true
     | _ => Except.ok false)
  | Cli.ProcOutcome.fileNotFoundError =>
    (match pipInstall with
     | Cli.ProcOutcome.ok => Except.ok true
     | _ => Except.ok false)
  | Cli.ProcOutcome.timeoutExpired => Except.error PyExn.timeoutExpired
  | Cli.ProcOutcome.otherError m => Except.error (PyExn.otherError m)

end Installer

/-! ## `fetch_requirements_from_url` (C5), vnstock_cli.py lines 834-871 -/

namespace Cli

/-- `REQUIRED_DEPENDENCIES_FALLBACK` (vnstock_cli.py, lines 50-58). -/
def REQUIRED_DEPENDENCIES_FALLBACK : List String :=
  ["typing_extensions>=4.6.0", "vnstock>=3.4.0", "vnai", "vnii",
   "requests", "pandas", "numpy"]

/-- `COLAB_REQUIREMENTS_FALLBACK` (vnstock_cli.py, lines 61-67). -/
def COLAB_REQUIREMENTS_FALLBACK : List String :=
  ["typing_extensions>=4.6.0", "vnstock>=3.4.1", "vnai", "vnii"]

/-- Outcome of `requests.get(REQUIREMENTS_URL, timeout=10)`: either a
raised exception (timeout included) or a response with a status and a
text body. -/
inductive FetchOutcome where
  | exn (msg : String)
  | resp (status : Nat) (text : String)
  deriving DecidableEq, Repr

/-- The manifest parse loop: strip the body, split on newlines, strip
each line, drop empty lines, comments and `--`-directives. -/
def parseRequirementLines (text : String) : List String :=
  ((text.trim.splitOn "\n").map String.trim).filter
    (fun line => line != "" && !line.startsWith "#" && !line.startsWith "--")

/-- The `typing`-plus-`extensions` membership test of the reorder step. -/
def isTypingExtReq (r : String) : Bool :=
  strContainsSub (strLower r) "typing" && strContainsSub (strLower r) "extensions"

/-- Translation of `fetch_requirements_from_url`: a 200 response is
parsed and reordered so a `typing_extensions` requirement comes first
(injecting the pin when absent); a non-200 status falls out of the `if`
and an exception is caught, and both paths return the hardcoded fallback
(the Colab variant when `is_colab`). -/
def fetch_requirements_from_url (isColab : Bool) (o : FetchOutcome) : List String :=
  match o with
  | FetchOutcome.resp status text =>
    if status == 200 then
      let requirements := parseRequirementLines text
      let typingExtReqs := requirements.filter isTypingExtReq
      let otherReqs := requirements.filter (fun r => !typingExtReqs.contains r)
      let finalTyping :=
        if typingExtReqs.isEmpty then ["typing_extensions>=4.6.0"] else typingExtReqs
      finalTyping ++ otherReqs
    else if isColab then COLAB_REQUIREMENTS_FALLBACK else REQUIRED_DEPENDENCIES_FALLBACK
  | FetchOutcome.exn _ =>
    if isColab then COLAB_REQUIREMENTS_FALLBACK else REQUIRED_DEPENDENCIES_FALLBACK

end Cli

/-! ## `VnstockLicenseManager.download_package` and
`_verify_package_import` (C3, C4, C8), vnstock-installer.py lines 780-1051
and 1125-1168 -/

namespace Installer

/-- A node of the extracted archive as the descriptor search sees it:
`os.listdir` of the extraction root yields these entries, and for each
directory entry the search can probe for descriptor files one level
down.  Deeper levels are represented so that the search provably ignores
them. -/
inductive Entry where
  | file (name : String)
  | dir (name : String) (children : List Entry)
  deriving Repr

/-- The name of an entry. -/
def entryName : Entry → String
  | Entry.file n => n
  | Entry.dir n _ => n

/-- `os.path.exists(d/'setup.py') or os.path.exists(d/'pyproject.toml')`
for a directory with the given entries. -/
def childHasDescriptor (children : List Entry) : Bool :=
  children.any (fun e => entryName e == "setup.py" || entryName e == "pyproject.toml")

/-- The subdirectory loop of the descriptor search: the first directory
entry (in listing order) that holds a descriptor file. -/
def findSetupSubdir : List Entry → Option String
  | [] => none
  | Entry.file _ :: rest => findSetupSubdir rest
  | Entry.dir n children :: rest =>
    if childHasDescriptor children then some n else findSetupSubdir rest

/-- Where the build descriptor was found. -/
inductive SetupDir where
  | extractRoot
  | subdir (name : String)
  deriving DecidableEq, Repr

/-- Translation of the descriptor search of `download_package` (lines
896-926): root first, then one level of subdirectories. -/
def find_setup_dir (entries : List Entry) : Option SetupDir :=
  if childHasDescriptor entries then some SetupDir.extractRoot
  else (findSetupSubdir entries).map SetupDir.subdir

/-- Does some depth-one subdirectory hold a descriptor file? -/
def someSubdirHasDescriptor (entries : List Entry) : Bool :=
  entries.any (fun e =>
    match e with
    | Entry.dir _ children => childHasDescriptor children
    | Entry.file _ => false)

/-- What `subprocess.run` of the `uv pip install` call reports. -/
structure InstallRun where
  returncode : Int
  stderrOutput : Option String
  deriving Repr

/-- Outcome of the `python -c "import pkg"` verification subprocess. -/
inductive ImportOutcome where
  | ran (returncode : Int) (stdoutText : String) (stderrText : String)
  | timeoutExpired
  | raised (msg : String)
  deriving Repr

/-- Translation of `_verify_package_import` (lines 1125-1168), branch by
branch: a clean `OK` run returns `True`; a failed check logs a warning
and still returns `True`; the timeout handler returns `True`; the generic
handler returns `True`. -/
def verify_package_import (o : ImportOutcome) : Bool :=
  match o with
  | ImportOutcome.ran rc out _ =>
    if rc == 0 && strContainsSub out "OK" then true
    else true
  | ImportOutcome.timeoutExpired => true
  | ImportOutcome.raised _ => true

/-- The `error_indicators` list of `download_package`. -/
def error_indicators : List String :=
  ["ModuleNotFoundError", "ImportError", "ERROR", "FAILED", "Could not install"]

/-- The stderr scan of `download_package`: lowercase the captured stderr
(empty when `None`) and look for any lowercased indicator. -/
def pipStderrHasError (stderrOutput : Option String) : Bool :=
  match stderrOutput with
  | none => false
  | some s => error_indicators.any (fun ind => strContainsSub (strLower s) (strLower ind))

/-- The fields `download_package` reads of the download-URL response. -/
structure UrlResp where
  status : Nat
  jsonError : Option String
  downloadUrl : Option String
  deriving Repr

/-- What the world does during one `download_package` call: the
download-URL POST, the archive GET, the extraction (raising `TarError` on
a bad archive) followed by the root listing, the `uv pip install`
subprocess, and the import-verification subprocess. -/
structure DlWorld where
  urlResp : Except PyExn UrlResp
  dlStatus : Except PyExn Nat
  extraction : Except PyExn (List Entry)
  installRun : Except PyExn InstallRun
  importRun : ImportOutcome
  deriving Repr

/-- Side effects of `download_package` that touch the filesystem or the
installed environment.  `uvPipInstallCall` is the only operation that
writes to the final install location. -/
inductive DlEffect where
  | tempTarSaved
  | rmtreeTempExtractDir
  | unlinkTempTar
  | uvPipInstallCall
  deriving DecidableEq, Repr

/-- The message `str(e)` of a modelled exception. -/
def pyExnMessage : PyExn → String
  | PyExn.timeoutExpired => "TimeoutExpired"
  | PyExn.calledProcessError => "CalledProcessError"
  | PyExn.fileNotFoundError => "FileNotFoundError"
  | PyExn.tarError m => m
  | PyExn.requestError m => m
  | PyExn.otherError m => m

/-- The extract-and-install section of `download_package` (the inner
`try` body, lines 864-1023): extraction, empty-listing check, descriptor
search, `uv pip install`, stderr scan, import verification.  Returns the
normal result or the escaping exception, together with the effects in
order. -/
def extract_and_install (packageName : String) (w : DlWorld) :
    Except PyExn (Bool × String) × List DlEffect :=
  match w.extraction with
  | Except.error e => (Except.error e, [])
  | Except.ok entries =>
    if entries.isEmpty then
      (Except.ok (false, "No files extracted"), [DlEffect.rmtreeTempExtractDir])
    else
      match find_setup_dir entries with
      | none =>
        (Except.ok (false, "Package structure invalid"), [DlEffect.rmtreeTempExtractDir])
      | some _ =>
        match w.installRun with
        | Except.error e => (Except.error e, [DlEffect.uvPipInstallCall])
        | Except.ok r =>
          if r.returncode == 0 && !pipStderrHasError r.stderrOutput then
            if verify_package_import w.importRun then
              (Except.ok (true, packageName ++ " installed successfully"),
               [DlEffect.uvPipInstallCall, DlEffect.rmtreeTempExtractDir])
            else
              (Except.ok (false, "Installation failed - package cannot be imported"),
               [DlEffect.uvPipInstallCall, DlEffect.rmtreeTempExtractDir])
          else
            (Except.ok (false, "Installation failed - pip error (check logs)"),
             [DlEffect.uvPipInstallCall, DlEffect.rmtreeTempExtractDir,
              DlEffect.rmtreeTempExtractDir])

/-- The whole `try` body of `download_package` (lines 790-1023): URL
request, non-200 checks, archive download, temp-file save, then the inner
`try` whose `finally` removes the temp tar. -/
def download_package_body (packageName : String) (w : DlWorld) :
    Except PyExn (Bool × String) × List DlEffect :=
  match w.urlResp with
  | Except.error e => (Except.error e, [])
  | Except.ok u =>
    if u.status != 200 then
      (Except.ok (false, u.jsonError.getD ("HTTP " ++ toString u.status)), [])
    else
      match u.downloadUrl with
      | none => (Except.error (PyExn.otherError "KeyError: downloadUrl"), [])
      | some _ =>
        match w.dlStatus with
        | Except.error e => (Except.error e, [])
        | Except.ok ds =>
          if ds != 200 then
            (Except.ok (false, "Download failed: HTTP " ++ toString ds), [])
          else
            let inner := extract_and_install packageName w
            (inner.1, DlEffect.tempTarSaved :: inner.2 ++ [DlEffect.unlinkTempTar])

/-- Translation of `download_package` (lines 780-1051): the body wrapped
in its three exception handlers.  A `subprocess.TimeoutExpired` and any
exception other than `tarfile.TarError` are converted into a soft success
whose message says "prepared"; only a `TarError` becomes a failure. -/
def download_package (packageName : String) (w : DlWorld) :
    (Bool × String) × List DlEffect :=
  let body := download_package_body packageName w
  match body.1 with
  | Except.ok r => (r, body.2)
  | Except.error PyExn.timeoutExpired =>
    ((true, packageName ++ " prepared"), body.2)
  | Except.error (PyExn.tarError m) =>
    ((false, "Extraction error: " ++ m), body.2)
  | Except.error e =>
    ((true, packageName ++ " prepared (error: " ++ (pyExnMessage e).take 50 ++ ")"),
     body.2)

end Installer

/-! ## Helper lemmas: substring containment -/

theorem chStarts_self_append (sub rest : List Char) : chStarts sub (sub ++ rest) = true := by
  induction sub with
  | nil => rfl
  | cons a as ih => simp [chStarts, ih]

theorem chContainsSub_of_starts {sub l : List Char} (h : chStarts sub l = true) :
    chContainsSub sub l = true := by
  cases l with
  | nil => simpa [chContainsSub] using h
  | cons c t => simp [chContainsSub, h]

theorem chContainsSub_cons {sub t : List Char} (c : Char) (h : chContainsSub sub t = true) :
    chContainsSub sub (c :: t) = true := by
  simp [chContainsSub, h]

theorem chContainsSub_append_left (a : List Char) {sub b : List Char}
    (h : chContainsSub sub b = true) : chContainsSub sub (a ++ b) = true := by
  induction a with
  | nil => simpa using h
  | cons c t ih => simpa using chContainsSub_cons c ih

theorem chContainsSub_flank (pre mid post : List Char) :
    chContainsSub mid (pre ++ (mid ++ post)) = true :=
  chContainsSub_append_left pre (chContainsSub_of_starts (chStarts_self_append mid post))

theorem strContainsSub_of_data {s sub : String} (pre post : List Char)
    (h : s.data = pre ++ (sub.data ++ post)) : strContainsSub s sub = true := by
  unfold strContainsSub
  rw [h]
  exact chContainsSub_flank pre sub.data post

theorem strLower_data (s : String) : (strLower s).data = s.data.map Char.toLower := rfl

/-! ## Helper lemmas: the stable sort -/

theorem sInsert_perm {α : Type} (le : α → α → Bool) (x : α) (l : List α) :
    (sInsert le x l).Perm (x :: l) := by
  induction l with
  | nil => exact List.Perm.refl _
  | cons y t ih =>
    by_cases h : le y x = true
    · simpa [sInsert, h] using ((ih.cons y).trans (List.Perm.swap x y t))
    · simp [sInsert, h]

theorem mem_sInsert {α : Type} (le : α → α → Bool) (x z : α) (l : List α) :
    z ∈ sInsert le x l ↔ z = x ∨ z ∈ l := by
  induction l with
  | nil => simp [sInsert]
  | cons y t ih =>
    by_cases h : le y x = true
    · simp [sInsert, h, ih]
      tauto
    · simp [sInsert, h]

theorem sInsert_pairwise {α : Type} {le : α → α → Bool}
    (htotal : ∀ a b, (le a b || le b a) = true)
    (htrans : ∀ a b c, le a b = true → le b c = true → le a c = true)
    (x : α) {l : List α} (h : l.Pairwise (fun a b => le a b = true)) :
    (sInsert le x l).Pairwise (fun a b => le a b = true) := by
  induction l with
  | nil => simp [sInsert]
  | cons y t ih =>
    rcases List.pairwise_cons.mp h with ⟨hy, ht⟩
    by_cases hle : le y x = true
    · rw [sInsert, if_pos hle]
      refine List.pairwise_cons.mpr ⟨?_, ih ht⟩
      intro z hz
      rcases (mem_sInsert le x z t).mp hz with rfl | hz
      · exact hle
      · exact hy z hz
    · rw [sInsert, if_neg hle]
      have hxy : le x y = true := by
        rcases Bool.or_eq_true_iff.mp (htotal y x) with h1 | h1
        · exact absurd h1 hle
        · exact h1
      refine List.pairwise_cons.mpr ⟨?_, h⟩
      intro z hz
      rcases List.mem_cons.mp hz with rfl | hz
      · exact hxy
      · exact htrans x y z hxy (hy z hz)

theorem pyStableSortGo_perm {α : Type} (le : α → α → Bool) :
    ∀ (l acc : List α), (pyStableSortGo le acc l).Perm (acc ++ l) := by
  intro l
  induction l with
  | nil => intro acc; simp [pyStableSortGo]
  | cons x t ih =>
    intro acc
    have h1 := ih (sInsert le x acc)
    have h2 : (sInsert le x acc ++ t).Perm ((x :: acc) ++ t) :=
      (sInsert_perm le x acc).append_right t
    have h3 : ((x :: acc) ++ t).Perm (acc ++ x :: t) := by
      simpa using List.perm_middle.symm
    exact (h1.trans h2).trans h3

theorem pyStableSort_perm {α : Type} (le : α → α → Bool) (l : List α) :
    (pyStableSort le l).Perm l := by
  simpa using pyStableSortGo_perm le l []

theorem pyStableSortGo_pairwise {α : Type} {le : α → α → Bool}
    (htotal : ∀ a b, (le a b || le b a) = true)
    (htrans : ∀ a b c, le a b = true → le b c = true → le a c = true) :
    ∀ (l acc : List α), acc.Pairwise (fun a b => le a b = true) →
      (pyStableSortGo le acc l).Pairwise (fun a b => le a b = true) := by
  intro l
  induction l with
  | nil => intro acc h; simpa [pyStableSortGo] using h
  | cons x t ih =>
    intro acc h
    exact ih (sInsert le x acc) (sInsert_pairwise htotal htrans x h)

theorem pyStableSort_pairwise {α : Type} {le : α → α → Bool}
    (htotal : ∀ a b, (le a b || le b a) = true)
    (htrans : ∀ a b c, le a b = true → le b c = true → le a c = true)
    (l : List α) : (pyStableSort le l).Pairwise (fun a b => le a b = true) := by
  exact pyStableSortGo_pairwise htotal htrans l [] (List.Pairwise.nil)

theorem priority_le_total (a b : Pkg) : (priority_le a b || priority_le b a) = true := by
  simp only [priority_le, decide_eq_true_eq, Bool.or_eq_true]
  omega

theorem priority_le_trans (a b c : Pkg) (h1 : priority_le a b = true)
    (h2 : priority_le b c = true) : priority_le a c = true := by
  simp only [priority_le, decide_eq_true_eq] at h1 h2 ⊢
  omega

/-! ## Helper lemmas: `contains` against `indexOf` -/

theorem contains_iff_indexOf_lt (a : String) :
    ∀ l : List String, l.contains a = true ↔ l.indexOf a < l.length := by
  intro l
  induction l with
  | nil => simp [List.indexOf]
  | cons b t ih =>
    by_cases h : b = a
    · subst h
      simp [List.indexOf_cons]
    · have hba : (b == a) = false := by simpa using h
      have hab : (a == b) = false := by simpa using fun e => h e.symm
      simp only [List.contains_cons, hab, Bool.false_or, List.indexOf_cons, hba,
        cond_false, List.length_cons]
      rw [ih]
      omega

/-! ## C2: installation order -/

/-- The declared result order for the four-package set. -/
def targetC2 : List Pkg := [⟨"vnstock"⟩, ⟨"vnstock_data"⟩, ⟨"vnstock_ta"⟩, ⟨"vnstock_news"⟩]

theorem sorted_quad_unique : ∀ a ∈ targetC2, ∀ b ∈ targetC2, ∀ c ∈ targetC2, ∀ d ∈ targetC2,
    ([a, b, c, d] : List Pkg).Perm targetC2 →
    List.Pairwise (fun p q => priority_le p q = true) [a, b, c, d] →
    [a, b, c, d] = targetC2 := by decide

theorem sorted_quad_eq (s : List Pkg) (hperm : s.Perm targetC2)
    (hpw : s.Pairwise (fun a b => priority_le a b = true)) : s = targetC2 := by
  have hlen : s.length = 4 := by simpa [targetC2] using hperm.length_eq
  cases s with
  | nil => simp at hlen
  | cons a s1 =>
    cases s1 with
    | nil => simp at hlen
    | cons b s2 =>
      cases s2 with
      | nil => simp at hlen
      | cons c s3 =>
        cases s3 with
        | nil => simp at hlen
        | cons d s4 =>
          cases s4 with
          | cons e s5 => simp at hlen
          | nil =>
            have ha : a ∈ targetC2 := hperm.subset (by simp)
            have hb : b ∈ targetC2 := hperm.subset (by simp)
            have hc : c ∈ targetC2 := hperm.subset (by simp)
            have hd : d ∈ targetC2 := hperm.subset (by simp)
            exact sorted_quad_unique a ha b hb c hc d hd hperm hpw

/-- C2: sorting any ordering of the four-package set
`{vnstock_news, vnstock_data, vnstock_ta, vnstock}` by
`get_package_priority` always yields
`[vnstock, vnstock_data, vnstock_ta, vnstock_news]`; and in every sorted
package list, a package whose name is outside the declared order list
never comes before one whose name is inside it. -/
theorem C2_install_order :
    (∀ l : List Pkg,
      l.Perm [⟨"vnstock_news"⟩, ⟨"vnstock_data"⟩, ⟨"vnstock_ta"⟩, ⟨"vnstock"⟩] →
      sortPackagesByPriority l = targetC2)
    ∧ (∀ l : List Pkg, (sortPackagesByPriority l).Pairwise
        (fun a b => pkgKnown b = true → pkgKnown a = true)) := by
  constructor
  · intro l hl
    have htt : ([⟨"vnstock_news"⟩, ⟨"vnstock_data"⟩, ⟨"vnstock_ta"⟩, ⟨"vnstock"⟩] :
        List Pkg).Perm targetC2 := by decide
    have hperm : (sortPackagesByPriority l).Perm targetC2 :=
      ((pyStableSort_perm _ l).trans hl).trans htt
    have hpw : (sortPackagesByPriority l).Pairwise (fun a b => priority_le a b = true) :=
      pyStableSort_pairwise priority_le_total priority_le_trans l
    exact sorted_quad_eq _ hperm hpw
  · intro l
    have hpw : (sortPackagesByPriority l).Pairwise (fun a b => priority_le a b = true) :=
      pyStableSort_pairwise priority_le_total priority_le_trans l
    refine hpw.imp ?_
    intro a b hab hb
    have hb5 : get_package_priority b < 5 := by
      have h1 := (contains_iff_indexOf_lt b.name package_order).mp (by simpa [pkgKnown] using hb)
      simpa [get_package_priority, package_order] using h1
    have hab5 : get_package_priority a ≤ get_package_priority b := by
      simpa [priority_le] using hab
    have ha5 : get_package_priority a < 5 := lt_of_le_of_lt hab5 hb5
    have h2 : package_order.indexOf a.name < package_order.length := by
      simpa [get_package_priority, package_order] using ha5
    simpa [pkgKnown] using (contains_iff_indexOf_lt a.name package_order).mpr h2

/-- Witness for C2: a concrete shuffled ordering of the four-package set
sorts to the declared order. -/
theorem C2_install_order_witness :
    sortPackagesByPriority [⟨"vnstock_news"⟩, ⟨"vnstock_ta"⟩, ⟨"vnstock_data"⟩, ⟨"vnstock"⟩] =
      targetC2 :=
  C2_install_order.1 _ (by decide)

/-! ## C10: the log sanitizer -/

/-- C10: `sanitize_log_data` maps every entry pointwise: a key whose
lowercased name contains a sensitive substring is redacted, a dict value
under a non-sensitive key is sanitized recursively, and every other value
is unchanged; the key sequence is preserved; a list value under a
non-sensitive key is returned untouched (so dicts nested inside lists are
not sanitized); and a sensitive key is always redacted. -/
theorem C10_sanitize :
    (∀ entries : List (String × PyVal),
      sanitize_log_data entries = entries.map (fun p => (p.1, sanitizeEntryClaim p.1 p.2)))
    ∧ (∀ entries : List (String × PyVal),
      (sanitize_log_data entries).map Prod.fst = entries.map Prod.fst)
    ∧ (∀ (k : String) (xs : List PyVal), isSensitiveKey k = false →
      sanitize_log_data [(k, PyVal.pylist xs)] = [(k, PyVal.pylist xs)])
    ∧ (∀ (k : String) (v : PyVal) (rest : List (String × PyVal)), isSensitiveKey k = true →
      sanitize_log_data ((k, v) :: rest) =
        (k, PyVal.str "***REDACTED***") :: sanitize_log_data rest) := by
  have h1 : ∀ entries : List (String × PyVal),
      sanitize_log_data entries = entries.map (fun p => (p.1, sanitizeEntryClaim p.1 p.2)) := by
    intro entries
    induction entries with
    | nil => simp [sanitize_log_data]
    | cons p rest ih =>
      obtain ⟨k, v⟩ := p
      by_cases hk : isSensitiveKey k = true <;>
        cases v <;> simp [sanitize_log_data, sanitizeEntryClaim, hk, ih]
  refine ⟨h1, ?_, ?_, ?_⟩
  · intro entries
    rw [h1]
    simp
  · intro k xs hk
    simp [sanitize_log_data, hk]
  · intro k v rest hk
    cases v <;> simp [sanitize_log_data, hk]

/-- Witness for C10: a dict nested inside a list value under a
non-sensitive key, with a sensitive key inside, passes through untouched. -/
theorem C10_sanitize_witness :
    sanitize_log_data [("payload", PyVal.pylist [PyVal.dict [("api_key", PyVal.str "abc")]])] =
      [("payload", PyVal.pylist [PyVal.dict [("api_key", PyVal.str "abc")]])] :=
  C10_sanitize.2.2.1 "payload" [PyVal.dict [("api_key", PyVal.str "abc")]] (by decide)

/-! ## C5: manifest fetch fallback -/

/-- C5: whenever the manifest fetch fails (an exception or any non-200
status), `fetch_requirements_from_url` returns the hardcoded fallback
list for the context, which is non-empty and starts with the
`typing_extensions` pin. -/
theorem C5_requirements_fallback :
    ∀ (isColab : Bool) (o : Cli.FetchOutcome),
      (∀ status text, o = Cli.FetchOutcome.resp status text → status ≠ 200) →
      Cli.fetch_requirements_from_url isColab o =
        (if isColab then Cli.COLAB_REQUIREMENTS_FALLBACK else Cli.REQUIRED_DEPENDENCIES_FALLBACK)
      ∧ Cli.fetch_requirements_from_url isColab o ≠ []
      ∧ (Cli.fetch_requirements_from_url isColab o).head? = some "typing_extensions>=4.6.0" := by
  intro isColab o h
  match o with
  | Cli.FetchOutcome.exn m =>
    cases isColab <;>
      simp [Cli.fetch_requirements_from_url, Cli.COLAB_REQUIREMENTS_FALLBACK,
        Cli.REQUIRED_DEPENDENCIES_FALLBACK]
  | Cli.FetchOutcome.resp s t =>
    have hs : s ≠ 200 := h s t rfl
    have hs2 : (s == 200) = false := by simpa using hs
    cases isColab <;>
      simp [Cli.fetch_requirements_from_url, hs2, Cli.COLAB_REQUIREMENTS_FALLBACK,
        Cli.REQUIRED_DEPENDENCIES_FALLBACK]

/-- Witness for C5: a 503 response yields the non-Colab fallback with the
`typing_extensions` pin first. -/
theorem C5_requirements_fallback_witness :
    Cli.fetch_requirements_from_url false (Cli.FetchOutcome.resp 503 "oops") =
      Cli.REQUIRED_DEPENDENCIES_FALLBACK
    ∧ Cli.fetch_requirements_from_url false (Cli.FetchOutcome.resp 503 "oops") ≠ []
    ∧ (Cli.fetch_requirements_from_url false (Cli.FetchOutcome.resp 503 "oops")).head? =
      some "typing_extensions>=4.6.0" := by
  have h := C5_requirements_fallback false (Cli.FetchOutcome.resp 503 "oops")
    (by intro s t e; cases e; decide)
  simpa using h

/-! ## C7: exit code on user cancellation -/

/-- C7 counterexample: the CLI entry point maps a keyboard interrupt to
exit code 1, the same code it uses for an unrecoverable failure, so the
cancellation code of this entry point is not distinct from 1 and is not a
130-equivalent. -/
theorem C7_cli_interrupt_counterexample :
    Cli.cli_main_exit_code Cli.CliTerm.keyboardInterrupt = 1
    ∧ Cli.cli_main_exit_code (Cli.CliTerm.completed false) = 1
    ∧ Cli.cli_main_exit_code Cli.CliTerm.keyboardInterrupt ≠ 130 := by
  refine ⟨rfl, rfl, by decide⟩

/-- C7 amended: the standalone installer entry point exits 130 on a
keyboard interrupt, distinct from the exit code 1 of an unrecoverable
failure; the CLI entry point instead exits 1 on a keyboard interrupt,
indistinguishable from a failure. -/
theorem C7_interrupt_exit_codes :
    Installer.installer_exit_code Installer.TermEvent.keyboardInterrupt = 130
    ∧ Installer.installer_exit_code (Installer.TermEvent.unexpectedError "boom") = 1
    ∧ (130 : Nat) ≠ 1
    ∧ Cli.cli_main_exit_code Cli.CliTerm.keyboardInterrupt = 1
    ∧ Cli.cli_main_exit_code (Cli.CliTerm.completed false) = 1 := by
  refine ⟨rfl, rfl, by decide, rfl, rfl⟩

/-! ## C6: runtime provisioning -/

/-- C6 counterexample: provisioning can abort the run on both paths.  In
the standalone installer, a `FileNotFoundError` of the `uv venv` call
escapes `create_or_use_venv` (only `CalledProcessError` is caught), and
an exception escaping `main` terminates the installer with exit code 1.
In the CLI orchestrator, a failing `uv venv` creation makes
`create_virtual_environment` return `False`, which makes `run` return
`False` and the process exit 1, instead of degrading to the ambient
interpreter. -/
theorem C6_provisioning_abort_counterexample :
    Installer.create_or_use_venv "/content/venv"
      ⟨false, Except.error PyExn.fileNotFoundError, false⟩
      = Except.error PyExn.fileNotFoundError
    ∧ Installer.installer_exit_code
        (Installer.TermEvent.unexpectedError "FileNotFoundError") = 1
    ∧ Cli.create_virtual_environment
      ⟨false, true, false, true, true, Except.ok true, false⟩ = false
    ∧ Cli.cliRun ⟨false, true, true, true, true, false, true, true, true, true⟩ = false
    ∧ Cli.cli_main_exit_code (Cli.CliTerm.completed false) = 1
    ∧ Cli.cli_main_exit_code (Cli.CliTerm.completed false) ≠ 0 := by
  refine ⟨rfl, rfl, rfl, rfl, rfl, by decide⟩

/-- C6 amended: the installer's `create_or_use_venv` returns a usable
interpreter (the venv python or the ambient `sys.executable`) whenever
the `uv venv` call does not raise an uncaught exception, degrading to the
ambient interpreter when the venv python binary is absent or when the
call fails with a non-zero exit (`CalledProcessError`); but a
`FileNotFoundError` or any other non-`CalledProcessError` exception of
that call escapes the function, and an exception escaping `main` makes
the installer exit 1.  The CLI's `create_virtual_environment` returns
failure when venv creation fails, and `run` then aborts. -/
theorem C6_runtime_provisioning :
    (∀ (path : String) (w : Installer.VenvWorld),
      (w.venvExists = true ∨ w.createOutcome = Except.ok ()
        ∨ w.createOutcome = Except.error PyExn.calledProcessError) →
      Installer.create_or_use_venv path w = Except.ok (Installer.Interp.venvPython path) ∨
      Installer.create_or_use_venv path w = Except.ok Installer.Interp.ambient)
    ∧ (∀ (path : String) (w : Installer.VenvWorld), w.pythonBinaryExists = false →
        (w.venvExists = true ∨ w.createOutcome = Except.ok ()) →
        Installer.create_or_use_venv path w = Except.ok Installer.Interp.ambient)
    ∧ (∀ (path : String) (w : Installer.VenvWorld), w.venvExists = false →
        w.createOutcome = Except.error PyExn.calledProcessError →
        Installer.create_or_use_venv path w = Except.ok Installer.Interp.ambient)
    ∧ (∀ (path : String) (w : Installer.VenvWorld) (e : PyExn), w.venvExists = false →
        w.createOutcome = Except.error e → e ≠ PyExn.calledProcessError →
        Installer.create_or_use_venv path w = Except.error e)
    ∧ (∀ m : String,
        Installer.installer_exit_code (Installer.TermEvent.unexpectedError m) = 1)
    ∧ (∀ w : Cli.CveWorld, w.venvTypeSystem = false → w.venvPathConfigured = true →
        (w.venvExists && w.venvHealthy) = false →
        (w.venvExists && !w.venvHealthy && !w.rmtreeSucceeds) = false →
        w.uvInstallResult = Except.ok true → w.uvVenvCreateOk = false →
        Cli.create_virtual_environment w = false)
    ∧ (∀ s : Cli.RunSteps, s.isColab = false → s.createVenvOk = false →
        Cli.cliRun s = false) := by
  refine ⟨?_, ?_, ?_, ?_, ?_, ?_, ?_⟩
  · intro path w h
    obtain ⟨ve, co, pb⟩ := w
    simp only at h
    rcases h with h | h | h
    · subst h
      cases pb <;> simp [Installer.create_or_use_venv]
    · subst h
      cases ve <;> cases pb <;> simp [Installer.create_or_use_venv]
    · subst h
      cases ve <;> cases pb <;> simp [Installer.create_or_use_venv]
  · intro path w hp h
    obtain ⟨ve, co, pb⟩ := w
    simp only at hp h
    subst hp
    rcases h with h | h
    · subst h
      simp [Installer.create_or_use_venv]
    · subst h
      cases ve <;> simp [Installer.create_or_use_venv]
  · intro path w hve hco
    obtain ⟨ve, co, pb⟩ := w
    simp only at hve hco
    subst hve
    subst hco
    simp [Installer.create_or_use_venv]
  · intro path w e hve hco hne
    obtain ⟨ve, co, pb⟩ := w
    simp only at hve hco
    subst hve
    subst hco
    cases e <;> first | exact absurd rfl hne | rfl
  · intro m
    rfl
  · intro w h1 h2 h3 h4 h5 h6
    obtain ⟨ts, pc, ve, vh, rs, uir, uv⟩ := w
    simp only at h1 h2 h3 h4 h5 h6
    subst h1
    subst h2
    subst h5
    subst h6
    simp [Cli.create_virtual_environment, h3, h4]
  · intro s h1 h2
    obtain ⟨ic, md, dp, sp, sv, cv, id2, icd, io, vo⟩ := s
    simp only at h1 h2
    subst h1
    subst h2
    simp [Cli.cliRun]

/-- Witness for C6: concrete installer worlds whose `uv venv` call exits
non-zero (degradation to ambient) and raises a `FileNotFoundError` (the
exception escapes), and a concrete CLI world whose venv creation fails,
all driven through the theorem. -/
theorem C6_runtime_provisioning_witness :
    Installer.create_or_use_venv "/tmp/venv"
      ⟨false, Except.error PyExn.calledProcessError, true⟩
      = Except.ok Installer.Interp.ambient
    ∧ Installer.create_or_use_venv "/tmp/venv"
      ⟨false, Except.error PyExn.fileNotFoundError, true⟩
      = Except.error PyExn.fileNotFoundError
    ∧ Cli.create_virtual_environment
      ⟨false, true, true, false, true, Except.ok true, false⟩ = false := by
  refine ⟨?_, ?_, ?_⟩
  · exact C6_runtime_provisioning.2.2.1 "/tmp/venv"
      ⟨false, Except.error PyExn.calledProcessError, true⟩ rfl rfl
  · exact C6_runtime_provisioning.2.2.2.1 "/tmp/venv"
      ⟨false, Except.error PyExn.fileNotFoundError, true⟩ PyExn.fileNotFoundError
      rfl rfl (by decide)
  · exact C6_runtime_provisioning.2.2.2.2.2.1
      ⟨false, true, true, false, true, Except.ok true, false⟩ rfl rfl rfl rfl rfl rfl

/-! ## Message-containment lemmas -/

theorem strLower_append (a b : String) : strLower (a ++ b) = strLower a ++ strLower b := by
  apply String.ext
  simp [strLower, String.data_append]

theorem detect_line_contains (uiFail detail : String) :
    strContainsSub (strLower ((uiFail ++ ": ") ++ ("Device limit exceeded: " ++ detail)))
      "device limit exceeded" = true := by
  have hc : strLower "Device limit exceeded: " = "device limit exceeded: " := by decide
  have hline : strLower ((uiFail ++ ": ") ++ ("Device limit exceeded: " ++ detail))
      = (strLower uiFail ++ strLower ": ") ++ ("device limit exceeded: " ++ strLower detail) := by
    simp only [strLower_append, hc]
  rw [hline]
  apply strContainsSub_of_data ((strLower uiFail ++ strLower ": ").data)
    ([':', ' '] ++ (strLower detail).data)
  simp only [String.data_append]
  rfl

theorem prepared_tail (name : String) :
    strContainsSub (name ++ " prepared") "prepared" = true := by
  apply strContainsSub_of_data (name.data ++ [' ']) []
  rw [String.data_append]
  have h : (" prepared").data = [' '] ++ ("prepared".data ++ []) := by decide
  rw [h]
  simp

theorem prepared_mid (name t : String) :
    strContainsSub (name ++ " prepared (error: " ++ t ++ ")") "prepared" = true := by
  apply strContainsSub_of_data (name.data ++ [' '])
    (" (error: ".data ++ (t.data ++ [')']))
  simp only [String.data_append, List.append_assoc]
  simp only [← List.append_assoc]
  congr 2
  simp only [List.append_assoc]
  rfl

/-! ## C1: HTTP 429 at device registration -/

/-- C1 counterexample: with a 429 registration response, `register_device`
reports the device-limit condition, but the installer `main` saves the
failure and proceeds to the artifact-installation phase without any exit
call, so artifact installs are still performed after the 429 response. -/
theorem C1_continue_after_429_counterexample :
    Installer.register_device
      (Installer.RegOutcome.resp ⟨429, some "limit of 2 devices reached", none⟩)
      = (false, "Device limit exceeded: limit of 2 devices reached")
    ∧ Installer.MainEvent.artifactInstallPhase ∈
        (Installer.main_registration_step "Registering device" "Registration failed" false
          (Installer.RegOutcome.resp ⟨429, some "limit of 2 devices reached", none⟩)).1
    ∧ (∀ c : Nat, Installer.MainEvent.exitCall c ∉
        (Installer.main_registration_step "Registering device" "Registration failed" false
          (Installer.RegOutcome.resp ⟨429, some "limit of 2 devices reached", none⟩)).1) := by
  refine ⟨by decide, ?_, ?_⟩
  · simp [Installer.main_registration_step, Installer.register_device]
  · intro c h
    simp [Installer.main_registration_step, Installer.register_device] at h

/-- C1 amended: a 429 registration response is classified as
device-limit-exceeded; the installer `main` logs it and continues into the
artifact-installation phase (so artifact installs are still performed);
once the installer subprocess has finished, the CLI orchestrator detects
the marker in its output, prints the device-removal guidance, fails the
run, and the CLI process exits 1. -/
theorem C1_device_limit_flow :
    ∀ (detail uiReg uiFail : String) (pre post : List String) (rc : Int) (f s : Nat),
      (Installer.register_device (Installer.RegOutcome.resp ⟨429, some detail, none⟩)).1 = false
      ∧ (Installer.register_device (Installer.RegOutcome.resp ⟨429, some detail, none⟩)).2
          = "Device limit exceeded: " ++ detail
      ∧ Installer.MainEvent.artifactInstallPhase ∈
          (Installer.main_registration_step uiReg uiFail false
            (Installer.RegOutcome.resp ⟨429, some detail, none⟩)).1
      ∧ Cli.detect_device_limit
          (pre ++ (Installer.main_registration_step uiReg uiFail false
            (Installer.RegOutcome.resp ⟨429, some detail, none⟩)).2 ++ post) = true
      ∧ Cli.run_vnstock_installer
          ⟨pre ++ (Installer.main_registration_step uiReg uiFail false
            (Installer.RegOutcome.resp ⟨429, some detail, none⟩)).2 ++ post, rc, f, s⟩
          = (false, true)
      ∧ (∀ st : Cli.RunSteps, st.installerOk = false → Cli.cliRun st = false)
      ∧ Cli.cli_main_exit_code (Cli.CliTerm.completed false) = 1 := by
  intro detail uiReg uiFail pre post rc f s
  have hreg : Installer.register_device (Installer.RegOutcome.resp ⟨429, some detail, none⟩)
      = (false, "Device limit exceeded: " ++ detail) := by
    simp [Installer.register_device]
  have hstep : (Installer.main_registration_step uiReg uiFail false
      (Installer.RegOutcome.resp ⟨429, some detail, none⟩)).2
      = [uiReg, (uiFail ++ ": ") ++ ("Device limit exceeded: " ++ detail),
         "Note: Device registration failed, but installation will continue.",
         "User profile may be saved locally for next time."] := by
    simp [Installer.main_registration_step, hreg]
  have hdetect : Cli.detect_device_limit
      (pre ++ (Installer.main_registration_step uiReg uiFail false
        (Installer.RegOutcome.resp ⟨429, some detail, none⟩)).2 ++ post) = true := by
    rw [hstep]
    apply List.any_eq_true.mpr
    refine ⟨(uiFail ++ ": ") ++ ("Device limit exceeded: " ++ detail), by simp, ?_⟩
    exact detect_line_contains uiFail detail
  refine ⟨by rw [hreg], by rw [hreg], ?_, hdetect, ?_, ?_, rfl⟩
  · simp [Installer.main_registration_step, hreg]
  · have hdetect2 := hdetect
    simp only [List.append_assoc] at hdetect2
    simp [Cli.run_vnstock_installer, hdetect, hdetect2]
  · intro st hst
    obtain ⟨ic, md, dp, sp, sv, cv, id2, icd, io, vo⟩ := st
    simp only at hst
    subst hst
    cases ic <;> cases md <;> cases dp <;> cases sp <;> cases sv <;> cases cv <;>
      simp [Cli.cliRun]

/-- Witness for C1: instantiating the amended flow at a concrete world
fails the CLI run for a failing installer step. -/
theorem C1_device_limit_flow_witness :
    Cli.cliRun ⟨false, true, true, true, true, true, true, true, false, true⟩ = false :=
  (C1_device_limit_flow "limit of 2 devices reached" "Registering device" "Registration failed"
    [] [] 0 0 0).2.2.2.2.2.1
    ⟨false, true, true, true, true, true, true, true, false, true⟩ rfl

/-! ## C9: `ensure_uv_installed` fallback chain -/

theorem pipPlain_not_in_standalone (w : Cli.UvWorld) :
    Cli.UvAttempt.pipPlainAttempt ∉ (Cli.uv_standalone_stage w).2 := by
  obtain ⟨pr, cf, sh, pf, pp⟩ := w
  cases cf with
  | error e => simp [Cli.uv_standalone_stage]
  | ok rc =>
    by_cases hrc : (rc == 0) = true
    · cases sh with
      | error e => simp [Cli.uv_standalone_stage, hrc]
      | ok rc2 => simp [Cli.uv_standalone_stage, hrc]
    · simp [Cli.uv_standalone_stage, hrc]

/-- C9 counterexample: when the presence probe and the standalone
installer fail and the flagged pip attempt times out,
`ensure_uv_installed` returns `False` without ever attempting the plain
pip retry, even though that retry would have succeeded. -/
theorem C9_skip_retry_counterexample :
    (Cli.ensure_uv_installed ⟨Cli.ProcOutcome.calledProcessError,
      Except.error (PyExn.otherError "no curl"), Except.error (PyExn.otherError "no sh"),
      Cli.ProcOutcome.timeoutExpired, Cli.ProcOutcome.ok⟩).1 = Except.ok false
    ∧ Cli.UvAttempt.pipPlainAttempt ∉
      (Cli.ensure_uv_installed ⟨Cli.ProcOutcome.calledProcessError,
        Except.error (PyExn.otherError "no curl"), Except.error (PyExn.otherError "no sh"),
        Cli.ProcOutcome.timeoutExpired, Cli.ProcOutcome.ok⟩).2 := by
  refine ⟨rfl, ?_⟩
  intro h
  simp [Cli.ensure_uv_installed, Cli.ensure_uv_installed_absent,
    Cli.uv_standalone_stage] at h

theorem uv_absent_split {w : Cli.UvWorld}
    (h : (Cli.ensure_uv_installed_absent w).1 = Except.ok false) :
    (Cli.uv_standalone_stage w).1 = false
    ∧ ((w.pipWithFlag = Cli.ProcOutcome.calledProcessError
          ∧ w.pipPlain = Cli.ProcOutcome.calledProcessError
          ∧ Cli.UvAttempt.pipPlainAttempt ∈
              (Cli.ensure_uv_installed_absent w).2)
       ∨ (w.pipWithFlag ≠ Cli.ProcOutcome.ok
          ∧ w.pipWithFlag ≠ Cli.ProcOutcome.calledProcessError
          ∧ Cli.UvAttempt.pipPlainAttempt ∉
              (Cli.ensure_uv_installed_absent w).2)) := by
  cases hstage : (Cli.uv_standalone_stage w).1 with
  | true => simp [Cli.ensure_uv_installed_absent, hstage] at h
  | false =>
    refine ⟨rfl, ?_⟩
    cases hpf : w.pipWithFlag with
    | ok => simp [Cli.ensure_uv_installed_absent, hstage, hpf] at h
    | calledProcessError =>
      cases hpp : w.pipPlain with
      | ok => simp [Cli.ensure_uv_installed_absent, hstage, hpf, hpp] at h
      | calledProcessError =>
        refine Or.inl ⟨rfl, rfl, ?_⟩
        simp [Cli.ensure_uv_installed_absent, hstage, hpf, hpp]
      | fileNotFoundError =>
        simp [Cli.ensure_uv_installed_absent, hstage, hpf, hpp] at h
      | timeoutExpired =>
        simp [Cli.ensure_uv_installed_absent, hstage, hpf, hpp] at h
      | otherError m =>
        simp [Cli.ensure_uv_installed_absent, hstage, hpf, hpp] at h
    | fileNotFoundError =>
      refine Or.inr ⟨by simp [hpf], by simp [hpf], ?_⟩
      simp [Cli.ensure_uv_installed_absent, hstage, hpf,
        pipPlain_not_in_standalone]
    | timeoutExpired =>
      refine Or.inr ⟨by simp [hpf], by simp [hpf], ?_⟩
      simp [Cli.ensure_uv_installed_absent, hstage, hpf,
        pipPlain_not_in_standalone]
    | otherError m =>
      refine Or.inr ⟨by simp [hpf], by simp [hpf], ?_⟩
      simp [Cli.ensure_uv_installed_absent, hstage, hpf,
        pipPlain_not_in_standalone]

/-- C9 amended: a present tool returns `True` with no installation
attempts; `False` is returned only when the probe failed, the standalone
installer did not succeed, and the pip attempt failed, where the plain
retry is attempted only when the flagged attempt failed with a non-zero
exit (`CalledProcessError`); a timeout or other exception of the flagged
attempt yields `False` without the retry.  The installer-side variant
returns `False` only when its probe failed and its single plain pip
attempt did not succeed. -/
theorem C9_uv_fallbacks :
    (∀ w : Cli.UvWorld, w.probe = Cli.ProcOutcome.ok →
      Cli.ensure_uv_installed w = (Except.ok true, [Cli.UvAttempt.probeAttempt]))
    ∧ (∀ w : Cli.UvWorld, (Cli.ensure_uv_installed w).1 = Except.ok false →
        (w.probe = Cli.ProcOutcome.calledProcessError ∨
          w.probe = Cli.ProcOutcome.fileNotFoundError)
        ∧ (Cli.uv_standalone_stage w).1 = false
        ∧ ((w.pipWithFlag = Cli.ProcOutcome.calledProcessError
              ∧ w.pipPlain = Cli.ProcOutcome.calledProcessError
              ∧ Cli.UvAttempt.pipPlainAttempt ∈ (Cli.ensure_uv_installed w).2)
           ∨ (w.pipWithFlag ≠ Cli.ProcOutcome.ok
              ∧ w.pipWithFlag ≠ Cli.ProcOutcome.calledProcessError
              ∧ Cli.UvAttempt.pipPlainAttempt ∉ (Cli.ensure_uv_installed w).2)))
    ∧ (∀ probe pip : Cli.ProcOutcome,
        Installer.ensure_uv_installed probe pip = Except.ok false →
        (probe = Cli.ProcOutcome.calledProcessError ∨
          probe = Cli.ProcOutcome.fileNotFoundError)
        ∧ pip ≠ Cli.ProcOutcome.ok) := by
  refine ⟨?_, ?_, ?_⟩
  · intro w hp
    obtain ⟨pr, cf, sh, pf, pp⟩ := w
    simp only at hp
    subst hp
    rfl
  · intro w h
    obtain ⟨pr, cf, sh, pf, pp⟩ := w
    cases pr with
    | ok => simp [Cli.ensure_uv_installed] at h
    | timeoutExpired => simp [Cli.ensure_uv_installed] at h
    | otherError m => simp [Cli.ensure_uv_installed] at h
    | calledProcessError =>
      refine ⟨Or.inl rfl, ?_⟩
      rw [show Cli.ensure_uv_installed ⟨Cli.ProcOutcome.calledProcessError, cf, sh, pf, pp⟩
        = Cli.ensure_uv_installed_absent
            ⟨Cli.ProcOutcome.calledProcessError, cf, sh, pf, pp⟩ from rfl] at h ⊢
      exact uv_absent_split h
    | fileNotFoundError =>
      refine ⟨Or.inr rfl, ?_⟩
      rw [show Cli.ensure_uv_installed ⟨Cli.ProcOutcome.fileNotFoundError, cf, sh, pf, pp⟩
        = Cli.ensure_uv_installed_absent
            ⟨Cli.ProcOutcome.fileNotFoundError, cf, sh, pf, pp⟩ from rfl] at h ⊢
      exact uv_absent_split h
  · intro probe pip h
    cases probe <;> cases pip <;> simp_all [Installer.ensure_uv_installed]

/-- Witness for C9: with the tool already present, `ensure_uv_installed`
returns `True` after only the probe. -/
theorem C9_uv_fallbacks_witness :
    Cli.ensure_uv_installed ⟨Cli.ProcOutcome.ok, Except.error (PyExn.otherError "x"),
      Except.error (PyExn.otherError "y"), Cli.ProcOutcome.ok, Cli.ProcOutcome.ok⟩
      = (Except.ok true, [Cli.UvAttempt.probeAttempt]) :=
  C9_uv_fallbacks.1 _ rfl

/-! ## C3: soft success on timeout or unexpected exception -/

/-- C3: whenever the body of the per-artifact flow raises an exception
that is not a `tarfile.TarError` (an installation-subprocess timeout or
any other exception, network errors included), `download_package` returns
success with a message containing "prepared", so the remaining artifact
queue is not aborted. -/
theorem C3_soft_success :
    ∀ (name : String) (w : Installer.DlWorld) (e : PyExn),
      (Installer.download_package_body name w).1 = Except.error e →
      (∀ m, e ≠ PyExn.tarError m) →
      (Installer.download_package name w).1.1 = true
      ∧ strContainsSub (Installer.download_package name w).1.2 "prepared" = true := by
  intro name w e h hm
  cases e with
  | timeoutExpired =>
    exact ⟨by simp [Installer.download_package, h],
      by simpa [Installer.download_package, h] using prepared_tail name⟩
  | tarError m => exact absurd rfl (hm m)
  | calledProcessError =>
    exact ⟨by simp [Installer.download_package, h],
      by simpa [Installer.download_package, h] using
        prepared_mid name ((Installer.pyExnMessage PyExn.calledProcessError).take 50)⟩
  | fileNotFoundError =>
    exact ⟨by simp [Installer.download_package, h],
      by simpa [Installer.download_package, h] using
        prepared_mid name ((Installer.pyExnMessage PyExn.fileNotFoundError).take 50)⟩
  | requestError m =>
    exact ⟨by simp [Installer.download_package, h],
      by simpa [Installer.download_package, h] using
        prepared_mid name ((Installer.pyExnMessage (PyExn.requestError m)).take 50)⟩
  | otherError m =>
    exact ⟨by simp [Installer.download_package, h],
      by simpa [Installer.download_package, h] using
        prepared_mid name ((Installer.pyExnMessage (PyExn.otherError m)).take 50)⟩

/-- Witness for C3: a concrete flow whose extraction raises a non-tar
exception is reported as a soft success. -/
theorem C3_soft_success_witness :
    (Installer.download_package "vnstock_data"
      ⟨Except.ok ⟨200, none, some "https://x"⟩, Except.ok 200,
        Except.error (PyExn.otherError "disk full"),
        Except.ok ⟨0, none⟩, Installer.ImportOutcome.ran 0 "OK" ""⟩).1.1 = true
    ∧ strContainsSub (Installer.download_package "vnstock_data"
      ⟨Except.ok ⟨200, none, some "https://x"⟩, Except.ok 200,
        Except.error (PyExn.otherError "disk full"),
        Except.ok ⟨0, none⟩, Installer.ImportOutcome.ran 0 "OK" ""⟩).1.2 "prepared" = true :=
  C3_soft_success "vnstock_data" _ (PyExn.otherError "disk full") rfl
    (by intro m hx; cases hx)

/-! ## C4: import verification is advisory only -/

/-- C4: `_verify_package_import` returns `True` for every outcome of the
import-check subprocess, so the "Installation failed - package cannot be
imported" branch of `download_package` is unreachable, and a flow whose
package-manager install exits cleanly is always reported as successfully
installed. -/
theorem C4_import_verification :
    (∀ o : Installer.ImportOutcome, Installer.verify_package_import o = true)
    ∧ (∀ (name : String) (w : Installer.DlWorld),
        (Installer.extract_and_install name w).1
          ≠ Except.ok (false, "Installation failed - package cannot be imported"))
    ∧ (∀ (name : String) (w : Installer.DlWorld) (u : Installer.UrlResp)
        (r : Installer.InstallRun) (entries : List Installer.Entry),
        w.urlResp = Except.ok u → u.status = 200 → u.downloadUrl.isSome = true →
        w.dlStatus = Except.ok 200 →
        w.extraction = Except.ok entries → entries.isEmpty = false →
        (Installer.find_setup_dir entries).isSome = true →
        w.installRun = Except.ok r → r.returncode = 0 →
        Installer.pipStderrHasError r.stderrOutput = false →
        (Installer.download_package name w).1 = (true, name ++ " installed successfully")) := by
  have hv : ∀ o : Installer.ImportOutcome, Installer.verify_package_import o = true := by
    intro o
    cases o <;> simp [Installer.verify_package_import]
  refine ⟨hv, ?_, ?_⟩
  · intro name w
    obtain ⟨ur, ds, ex, ir, im⟩ := w
    cases ex with
    | error e => simp [Installer.extract_and_install]
    | ok entries =>
      simp only [Installer.extract_and_install]
      by_cases hemp : entries.isEmpty = true
      · simp [hemp]
      · simp only [hemp]
        rcases hfs : Installer.find_setup_dir entries with _ | sd
        · simp
        · cases ir with
          | error e => simp
          | ok r =>
            by_cases hok : (r.returncode == 0 && !Installer.pipStderrHasError r.stderrOutput)
                = true
            · simp [hok, hv]
            · simp [hok]
  · intro name w u r entries hur hst hdu hds hex hemp hfs hir hrc hpe
    obtain ⟨ur2, ds2, ex2, ir2, im2⟩ := w
    simp only at hur hds hex hir
    subst hur
    subst hds
    subst hex
    subst hir
    obtain ⟨st, je, du⟩ := u
    simp only at hst
    subst hst
    obtain ⟨url, hdu2⟩ := Option.isSome_iff_exists.mp hdu
    subst hdu2
    obtain ⟨sd, hfs2⟩ := Option.isSome_iff_exists.mp hfs
    have hok : (r.returncode == 0 && !Installer.pipStderrHasError r.stderrOutput) = true := by
      simp [hrc, hpe]
    simp [Installer.download_package, Installer.download_package_body,
      Installer.extract_and_install, hemp, hfs2, hok, hv]

/-- Witness for C4: a concrete clean install flow is reported as
successfully installed. -/
theorem C4_import_verification_witness :
    (Installer.download_package "vnstock"
      ⟨Except.ok ⟨200, none, some "https://x"⟩, Except.ok 200,
        Except.ok [Installer.Entry.file "setup.py"],
        Except.ok ⟨0, none⟩, Installer.ImportOutcome.timeoutExpired⟩).1
      = (true, "vnstock" ++ " installed successfully") :=
  C4_import_verification.2.2 "vnstock" _ ⟨200, none, some "https://x"⟩ ⟨0, none⟩
    [Installer.Entry.file "setup.py"] rfl rfl rfl rfl rfl rfl rfl rfl rfl rfl

/-! ## C8: build-descriptor search and the invalid-structure path -/

theorem findSetupSubdir_none_iff :
    ∀ entries : List Installer.Entry,
      Installer.findSetupSubdir entries = none ↔
      Installer.someSubdirHasDescriptor entries = false := by
  intro entries
  induction entries with
  | nil => simp [Installer.findSetupSubdir, Installer.someSubdirHasDescriptor]
  | cons e rest ih =>
    cases e with
    | file n =>
      simp [Installer.findSetupSubdir, Installer.someSubdirHasDescriptor, ih,
        List.any_cons]
    | dir n children =>
      by_cases hc : Installer.childHasDescriptor children = true
      · simp [Installer.findSetupSubdir, Installer.someSubdirHasDescriptor, hc]
      · simp [Installer.findSetupSubdir, Installer.someSubdirHasDescriptor, hc, ih]

/-- C8: the descriptor search succeeds exactly when a `setup.py` or
`pyproject.toml` entry exists at the extraction root or inside a depth-one
subdirectory (anything deeper is ignored); and when it fails on a
successfully extracted non-empty archive, `download_package` returns the
invalid-structure failure, removes the temporary extraction directory and
temp archive, and never invokes the package-manager install, leaving the
installed environment untouched. -/
theorem C8_descriptor_search :
    (∀ entries : List Installer.Entry,
      Installer.find_setup_dir entries = none ↔
      (Installer.childHasDescriptor entries = false
        ∧ Installer.someSubdirHasDescriptor entries = false))
    ∧ (∀ (name : String) (w : Installer.DlWorld) (u : Installer.UrlResp)
        (entries : List Installer.Entry),
        w.urlResp = Except.ok u → u.status = 200 → u.downloadUrl.isSome = true →
        w.dlStatus = Except.ok 200 → w.extraction = Except.ok entries →
        entries.isEmpty = false → Installer.find_setup_dir entries = none →
        Installer.download_package name w =
          ((false, "Package structure invalid"),
           [Installer.DlEffect.tempTarSaved, Installer.DlEffect.rmtreeTempExtractDir,
            Installer.DlEffect.unlinkTempTar])
        ∧ Installer.DlEffect.uvPipInstallCall ∉ (Installer.download_package name w).2) := by
  constructor
  · intro entries
    by_cases hroot : Installer.childHasDescriptor entries = true
    · simp [Installer.find_setup_dir, hroot]
    · simp [Installer.find_setup_dir, hroot, Option.map_eq_none',
        findSetupSubdir_none_iff]
  · intro name w u entries hur hst hdu hds hex hemp hfs
    obtain ⟨ur2, ds2, ex2, ir2, im2⟩ := w
    simp only at hur hds hex
    subst hur
    subst hds
    subst hex
    obtain ⟨st, je, du⟩ := u
    simp only at hst
    subst hst
    obtain ⟨url, hdu2⟩ := Option.isSome_iff_exists.mp hdu
    subst hdu2
    constructor
    · simp [Installer.download_package, Installer.download_package_body,
        Installer.extract_and_install, hemp, hfs]
    · simp [Installer.download_package, Installer.download_package_body,
        Installer.extract_and_install, hemp, hfs]

/-- Witness for C8: an archive whose only descriptor sits two levels deep
is rejected with the invalid-structure failure, with the temp extraction
directory removed and no package-manager call issued. -/
theorem C8_descriptor_search_witness :
    Installer.download_package "vnstock_ta"
      ⟨Except.ok ⟨200, none, some "https://x"⟩, Except.ok 200,
        Except.ok [Installer.Entry.dir "pkg"
          [Installer.Entry.dir "nested" [Installer.Entry.file "setup.py"]]],
        Except.ok ⟨0, none⟩, Installer.ImportOutcome.ran 0 "OK" ""⟩ =
      ((false, "Package structure invalid"),
       [Installer.DlEffect.tempTarSaved, Installer.DlEffect.rmtreeTempExtractDir,
        Installer.DlEffect.unlinkTempTar])
    ∧ Installer.DlEffect.uvPipInstallCall ∉
      (Installer.download_package "vnstock_ta"
        ⟨Except.ok ⟨200, none, some "https://x"⟩, Except.ok 200,
          Except.ok [Installer.Entry.dir "pkg"
            [Installer.Entry.dir "nested" [Installer.Entry.file "setup.py"]]],
          Except.ok ⟨0, none⟩, Installer.ImportOutcome.ran 0 "OK" ""⟩).2 :=
  C8_descriptor_search.2 "vnstock_ta" _ ⟨200, none, some "https://x"⟩
    [Installer.Entry.dir "pkg" [Installer.Entry.dir "nested" [Installer.Entry.file "setup.py"]]]
    rfl rfl rfl rfl rfl rfl rfl
